import Mathlib

/-!
Verification of the Solo-Git state store and lifecycle controller
(`src/heaven-gui/src-tauri/src/commands.rs`, `src/heaven-gui/src-tauri/src/main.rs`).

Shallow embedding conventions:
* Each on-disk JSON document collection (`repositories/<id>.json`,
  `workpads/<id>.json`, ...) is modelled as an association list
  `List (String × α)` from filename stem to parsed document; `lookup`
  models `read_json` on `<key>.json`, `setDoc` models `write_json`
  (atomic replace-or-create), `delDoc` models `fs::remove_file`.
* The `GlobalState` singleton (`global.json`) is always present in the
  modelled `Store` (the Rust code recreates it with defaults if absent).
* Timestamps (`Utc::now().to_rfc3339()`) are modelled as abstract instants
  `Nat` (milliseconds); `chrono::Duration::milliseconds(1500)` is `+ 1500`,
  `Duration::seconds(1)` is `+ 1000`.
* Random identifiers (`Uuid::new_v4().simple()`) are passed in as explicit
  string parameters.
* Rust `i32` counters are modelled as `Int` with explicit two's-complement
  wrapping (`wrap32`, release-mode overflow semantics); `f64` cost values
  are modelled as exact rationals.
* Best-effort side channels outside the document store (patch-history
  blobs, notes/rollback logs, the repository working-tree directory) are
  not part of the modelled state: the code swallows their failures and no
  document content depends on them.
-/

/-- Two's-complement wrapping of an `i32` value modelled as `Int`. -/
def wrap32 (n : Int) : Int := (n + 2 ^ 31) % 2 ^ 32 - 2 ^ 31

/-- `GlobalState` from `main.rs` (the `global.json` session singleton). -/
structure GlobalState where
  version : String
  last_updated : Nat
  active_repo : Option String
  active_workpad : Option String
  session_start : Nat
  total_operations : Int
  total_cost_usd : Rat
  deriving Repr, DecidableEq

/-- `RepositoryState` from `main.rs`. -/
structure RepositoryState where
  repo_id : String
  name : String
  path : String
  trunk_branch : String
  current_commit : Option String
  created_at : Nat
  updated_at : Nat
  workpads : List String
  total_commits : Int
  deriving Repr, DecidableEq

/-- `WorkpadState` from `main.rs`. -/
structure WorkpadState where
  workpad_id : String
  repo_id : String
  title : String
  status : String
  branch_name : String
  base_commit : String
  current_commit : Option String
  created_at : Nat
  updated_at : Nat
  promoted_at : Option Nat
  test_runs : List String
  ai_operations : List String
  patches_applied : Int
  files_changed : List String
  deriving Repr, DecidableEq

/-- `TestRun` from `main.rs`. -/
structure TestRun where
  run_id : String
  workpad_id : Option String
  target : String
  status : String
  started_at : Nat
  completed_at : Option Nat
  total_tests : Int
  passed : Int
  failed : Int
  skipped : Int
  duration_ms : Int
  deriving Repr, DecidableEq

/-- `AIOperation` from `main.rs`. -/
structure AIOperation where
  operation_id : String
  workpad_id : Option String
  operation_type : String
  status : String
  model : String
  prompt : String
  response : Option String
  cost_usd : Rat
  tokens_used : Int
  started_at : Nat
  completed_at : Option Nat
  error : Option String
  deriving Repr, DecidableEq

/-- `PromotionRecord` from `main.rs`. -/
structure PromotionRecord where
  record_id : String
  repo_id : String
  workpad_id : String
  decision : String
  can_promote : Bool
  auto_promote_requested : Bool
  promoted : Bool
  commit_hash : Option String
  message : String
  test_run_id : Option String
  ci_status : Option String
  ci_message : Option String
  created_at : Nat
  deriving Repr, DecidableEq

/-- A document collection: one typed document per file, keyed by the
filename stem (`<key>.json`). -/
abbrev Coll (α : Type) := List (String × α)

/-- `read_json` on `<key>.json`: the document stored under `key`, if any. -/
def lookup {α : Type} (c : Coll α) (k : String) : Option α :=
  List.lookup k c

/-- `fs::remove_file` on `<key>.json`. -/
def delDoc {α : Type} (c : Coll α) (k : String) : Coll α :=
  c.filter (fun p => !(p.1 == k))

/-- `write_json` on `<key>.json`: atomic replace-or-create. -/
def setDoc {α : Type} (c : Coll α) (k : String) (v : α) : Coll α :=
  (k, v) :: delDoc c k

/-- The whole persisted state root (`~/.sologit/state`). -/
structure Store where
  repositories : Coll RepositoryState
  workpads : Coll WorkpadState
  test_runs : Coll TestRun
  ai_operations : Coll AIOperation
  promotions : Coll PromotionRecord
  global_state : GlobalState
  deriving Repr, DecidableEq

/-- Rust `str::trim`, modelled over the character sequence: strip leading
and trailing whitespace. (Rust trims the Unicode White_Space set; the few
exotic whitespace code points outside `Char.isWhitespace` are not
modelled.) -/
def rustTrim (s : String) : String :=
  String.mk (((s.toList.dropWhile Char.isWhitespace).reverse.dropWhile
    Char.isWhitespace).reverse)

/-- Rust `str::to_lowercase`, modelled character-wise. (ASCII letters are
lowered exactly as Rust does; special Unicode lowercasings that expand to
several characters are not modelled — such characters are non-ASCII in
both source and model and `slugify` maps them to dashes either way.) -/
def lowerStr (s : String) : String :=
  String.mk (s.toList.map Char.toLower)

/-- `trim_matches('-')` from `slugify`: strip leading and trailing dashes. -/
def trimDashes (s : String) : String :=
  String.mk (((s.toList.dropWhile (fun c => c == '-')).reverse.dropWhile
    (fun c => c == '-')).reverse)

/-- `slugify` from `commands.rs`: lowercase, keep ASCII alphanumerics, turn
every other character into a dash (the source maps ASCII whitespace, dash
and underscore to a dash in one arm and all remaining characters to a dash
in its final arm), then strip leading/trailing dashes. -/
def slugify (value : String) : String :=
  let lowered := lowerStr value
  trimDashes (String.mk (lowered.toList.map (fun c =>
    if c.isAlphanum then c
    else if c.isWhitespace || c == '-' || c == '_' then '-'
    else '-')))

/-- Split a character sequence on newline characters (the groups between
the separators, as Rust `split('\n')` produces them). -/
def splitOnNl : List Char → List (List Char)
  | [] => [[]]
  | c :: cs =>
    if c = '\n' then [] :: splitOnNl cs
    else match splitOnNl cs with
      | h :: t => (c :: h) :: t
      | [] => [[c]]

/-- Rust `str::lines`: split on newline terminators, dropping the one
final empty piece produced by a trailing newline, and stripping a
trailing carriage return from each line. -/
def rustLines (s : String) : List String :=
  let parts := splitOnNl s.toList
  let parts := match parts.reverse with
    | [] :: rest => rest.reverse
    | _ => parts
  parts.map (fun l =>
    String.mk (if l.getLast? == some '\r' then l.dropLast else l))

/-- Lexicographic comparison of character sequences; `lexLe a b` holds when
`a` precedes or equals `b` in lexicographic (dictionary) order. Rust's
derived `Ord` on `String` compares UTF-8 byte sequences, which orders
exactly like the underlying scalar-value sequences compared here. -/
def lexLe : List Char → List Char → Bool
  | [], _ => true
  | _ :: _, [] => false
  | a :: as, b :: bs => if a < b then true else if a = b then lexLe as bs else false

/-- Collect into a set and sort lexicographically, as the source does with
a `HashSet` followed by `Vec::sort` (set-of-elements, ascending order). -/
def sortDedup (l : List String) : List String :=
  l.dedup.insertionSort (fun a b => lexLe a.toList b.toList = true)

/-- `parse_changed_files` from `commands.rs`: the deduplicated, sorted file
paths named by `+++ b/<path>` and `--- a/<path>` unified-diff headers. -/
def parse_changed_files (diff : String) : List String :=
  sortDedup ((rustLines diff).filterMap (fun line =>
    if "+++ b/".toList.isPrefixOf line.toList then
      some (rustTrim (String.mk (line.toList.drop 6)))
    else if "--- a/".toList.isPrefixOf line.toList then
      some (rustTrim (String.mk (line.toList.drop 6)))
    else none))

/-- `create_workpad` from `commands.rs`. `uuid` stands for the fresh
`Uuid::new_v4().simple()` string. -/
def create_workpad (st : Store) (repo_id title uuid : String) (now : Nat) :
    Except String (WorkpadState × Store) :=
  let trimmed := rustTrim title
  if trimmed = "" then .error "Workpad title cannot be empty"
  else match lookup st.repositories repo_id with
  | none => .error ("Repository not found: " ++ repo_id)
  | some repo =>
    let workpad_id := "wp-" ++ uuid
    let slug := slugify trimmed
    let branch_name :=
      if slug = "" then
        "workpad/" ++ String.mk ((workpad_id.toList.filter
          (fun c => !(c == '-'))).take 8)
      else "workpad/" ++ slug
    let base_commit := repo.current_commit.getD repo.trunk_branch
    let workpad : WorkpadState :=
      { workpad_id := workpad_id
        repo_id := repo.repo_id
        title := trimmed
        status := "draft"
        branch_name := branch_name
        base_commit := base_commit
        current_commit := repo.current_commit
        created_at := now
        updated_at := now
        promoted_at := none
        test_runs := []
        ai_operations := []
        patches_applied := 0
        files_changed := [] }
    let st1 := { st with workpads := setDoc st.workpads workpad.workpad_id workpad }
    let repo1 :=
      if repo.workpads.contains workpad_id then repo
      else { repo with workpads := workpad_id :: repo.workpads }
    let repo2 := { repo1 with updated_at := now }
    let st2 := { st1 with repositories := setDoc st1.repositories repo2.repo_id repo2 }
    let g := st2.global_state
    let g := { g with
      active_repo := some repo2.repo_id
      active_workpad := some workpad_id
      total_operations := wrap32 (g.total_operations + 1)
      last_updated := now }
    .ok (workpad, { st2 with global_state := g })

/-- `run_tests` from `commands.rs`: records a fully passing placeholder
`TestRun` (this core does not execute real tests). `uuid` stands for the
fresh `Uuid::new_v4().simple()` string used in the run id. -/
def run_tests (st : Store) (workpad_id target uuid : String) (now : Nat) :
    Except String (TestRun × Store) :=
  let trimmed := rustTrim target
  if trimmed = "" then .error "Test target cannot be empty"
  else match lookup st.workpads workpad_id with
  | none => .error ("Workpad not found: " ++ workpad_id)
  | some workpad =>
    let run_id := "tr-" ++ uuid
    let started_at := now
    let completed_at := started_at + 1500
    let test_run : TestRun :=
      { run_id := run_id
        workpad_id := some workpad_id
        target := trimmed
        status := "passed"
        started_at := started_at
        completed_at := some completed_at
        total_tests := 20
        passed := 20
        failed := 0
        skipped := 0
        duration_ms := 1500 }
    let st1 := { st with test_runs := setDoc st.test_runs test_run.run_id test_run }
    let workpad1 := { workpad with
      test_runs := run_id :: workpad.test_runs
      status := "passed"
      updated_at := now }
    let st2 := { st1 with workpads := setDoc st1.workpads workpad1.workpad_id workpad1 }
    let g := st2.global_state
    let g := { g with
      total_operations := wrap32 (g.total_operations + 1)
      active_workpad := some workpad1.workpad_id
      last_updated := now }
    .ok (test_run, { st2 with global_state := g })

/-- `promote_workpad` from `commands.rs`. Note: the source performs no
check on the workpad's current status. `uuid` stands for the fresh
`Uuid::new_v4().simple()` string used in the promotion-record id. -/
def promote_workpad (st : Store) (workpad_id uuid : String) (now : Nat) :
    Except String (PromotionRecord × Store) :=
  match lookup st.workpads workpad_id with
  | none => .error ("Workpad not found: " ++ workpad_id)
  | some workpad =>
    match lookup st.repositories workpad.repo_id with
    | none => .error ("Repository not found: " ++ workpad.repo_id)
    | some repo =>
      let workpad1 := { workpad with
        status := "promoted"
        promoted_at := some now
        updated_at := now }
      let st1 := { st with workpads := setDoc st.workpads workpad1.workpad_id workpad1 }
      let repo1 := match workpad1.current_commit with
        | some commit => { repo with current_commit := some commit }
        | none => repo
      let repo2 := { repo1 with updated_at := now }
      let st2 := { st1 with repositories := setDoc st1.repositories repo2.repo_id repo2 }
      let record_id := "pr-" ++ uuid
      let promotion : PromotionRecord :=
        { record_id := record_id
          repo_id := workpad1.repo_id
          workpad_id := workpad1.workpad_id
          decision := "manual"
          can_promote := true
          auto_promote_requested := false
          promoted := true
          commit_hash := workpad1.current_commit
          message := "Workpad \x27" ++ workpad1.title ++ "\x27 promoted to trunk"
          test_run_id := workpad1.test_runs.head?
          ci_status := none
          ci_message := none
          created_at := now }
      let st3 := { st2 with promotions := setDoc st2.promotions record_id promotion }
      let g := st3.global_state
      let g := if g.active_workpad = some workpad1.workpad_id
        then { g with active_workpad := none } else g
      let g := { g with
        total_operations := wrap32 (g.total_operations + 1)
        last_updated := now }
      .ok (promotion, { st3 with global_state := g })

/-- `apply_patch` from `commands.rs`. The raw diff is also persisted to an
append-only patch-history blob and a notes log, both outside the modelled
document store. `commit_uuid` stands for the fresh
`Uuid::new_v4().simple()` string recorded as the new current commit; the
`message` parameter only feeds the (unmodelled) notes log. -/
def apply_patch (st : Store) (workpad_id message diff commit_uuid : String)
    (now : Nat) : Except String (WorkpadState × Store) :=
  if rustTrim diff = "" then .error "Patch diff cannot be empty"
  else match lookup st.workpads workpad_id with
  | none => .error ("Workpad not found: " ++ workpad_id)
  | some workpad =>
    let workpad1 := { workpad with
      patches_applied := wrap32 (workpad.patches_applied + 1) }
    let files_vec := sortDedup (workpad1.files_changed ++ parse_changed_files diff)
    let workpad2 := { workpad1 with
      files_changed := files_vec
      status := "in_progress"
      current_commit := some commit_uuid
      updated_at := now }
    let st1 := { st with workpads := setDoc st.workpads workpad2.workpad_id workpad2 }
    let g := st1.global_state
    let g := { g with
      total_operations := wrap32 (g.total_operations + 1)
      active_workpad := some workpad2.workpad_id
      last_updated := now }
    let _ := message
    .ok (workpad2, { st1 with global_state := g })

/-- `rollback_workpad` from `commands.rs`. The optional `reason` only feeds
the (unmodelled, best-effort) rollback log. -/
def rollback_workpad (st : Store) (workpad_id : String) (reason : Option String)
    (now : Nat) : Except String (WorkpadState × Store) :=
  match lookup st.workpads workpad_id with
  | none => .error ("Workpad not found: " ++ workpad_id)
  | some workpad =>
    let workpad1 := { workpad with
      status := "draft"
      current_commit := some workpad.base_commit
      patches_applied := 0
      files_changed := []
      test_runs := []
      updated_at := now }
    let st1 := { st with workpads := setDoc st.workpads workpad1.workpad_id workpad1 }
    let g := st1.global_state
    let g := { g with
      total_operations := wrap32 (g.total_operations + 1)
      active_workpad := some workpad1.workpad_id
      last_updated := now }
    let _ := reason
    .ok (workpad1, { st1 with global_state := g })

/-- `delete_workpad` from `commands.rs`. -/
def delete_workpad (st : Store) (workpad_id : String) (now : Nat) :
    Except String (Unit × Store) :=
  match lookup st.workpads workpad_id with
  | none => .error ("Workpad not found: " ++ workpad_id)
  | some workpad =>
    let st1 := { st with workpads := delDoc st.workpads workpad_id }
    match lookup st1.repositories workpad.repo_id with
    | none => .error ("Repository not found: " ++ workpad.repo_id)
    | some repo =>
      let repo1 := { repo with
        workpads := repo.workpads.filter (fun id => !(id == workpad_id))
        updated_at := now }
      let st2 := { st1 with repositories := setDoc st1.repositories repo1.repo_id repo1 }
      let g := st2.global_state
      let g := if g.active_workpad = some workpad_id
        then { g with active_workpad := none } else g
      let g := { g with
        total_operations := wrap32 (g.total_operations + 1)
        last_updated := now }
      .ok ((), { st2 with global_state := g })

/-- `trigger_ai_operation` from `commands.rs`: records a stubbed AI
operation. Rust computes `tokens_used = ceil(prompt.len() / 4.0)` over the
UTF-8 byte length and `cost = tokens_used * 0.00002`; cost is modelled as
an exact rational. `uuid` stands for the fresh `Uuid::new_v4().simple()`
string used in the operation id. -/
def trigger_ai_operation (st : Store) (workpad_id prompt uuid : String)
    (now : Nat) : Except String (AIOperation × Store) :=
  if rustTrim prompt = "" then .error "Prompt cannot be empty"
  else
    let workpad_opt : Option String :=
      if rustTrim workpad_id = "" then none else some workpad_id
    let operation_id := "op-" ++ uuid
    let tokens_used : Int := Int.ofNat ((prompt.utf8ByteSize + 3) / 4)
    let cost : Rat := tokens_used * (2 / 100000)
    let operation : AIOperation :=
      { operation_id := operation_id
        workpad_id := workpad_opt
        operation_type := "prompt"
        status := "completed"
        model := "gpt-4"
        prompt := prompt
        response := some "AI orchestration placeholder response"
        cost_usd := cost
        tokens_used := tokens_used
        started_at := now
        completed_at := some (now + 1000)
        error := none }
    match workpad_opt with
    | some wp_id =>
      -- the source loads the workpad once up front to validate existence,
      -- writes the operation document, then loads and updates the workpad
      match lookup st.workpads wp_id with
      | none => .error ("Workpad not found: " ++ wp_id)
      | some _ =>
        let st1 := { st with
          ai_operations := setDoc st.ai_operations operation.operation_id operation }
        match lookup st1.workpads wp_id with
        | none => .error ("Workpad not found: " ++ wp_id)
        | some workpad =>
          let workpad1 := { workpad with
            ai_operations := operation_id :: workpad.ai_operations
            updated_at := now }
          let st2 := { st1 with
            workpads := setDoc st1.workpads workpad1.workpad_id workpad1 }
          let g := st2.global_state
          let g := { g with
            total_operations := wrap32 (g.total_operations + 1)
            total_cost_usd := g.total_cost_usd + cost
            last_updated := now }
          .ok (operation, { st2 with global_state := g })
    | none =>
      let st1 := { st with
        ai_operations := setDoc st.ai_operations operation.operation_id operation }
      let g := st1.global_state
      let g := { g with
        total_operations := wrap32 (g.total_operations + 1)
        total_cost_usd := g.total_cost_usd + cost
        last_updated := now }
      .ok (operation, { st1 with global_state := g })

/-- Root of the managed repository working-tree directories
(`~/.sologit/data/repos`), modelled as an abstract path string. -/
def get_repos_dir : String := ".sologit/data/repos"

/-- `create_repository` from `commands.rs`. `uuid` stands for the fresh
`Uuid::new_v4().simple()` string whose first 12 characters form the
repository id; directory creation is a filesystem effect outside the
modelled state. -/
def create_repository (st : Store) (name : String) (path : Option String)
    (uuid : String) (now : Nat) : Except String (RepositoryState × Store) :=
  let trimmed := rustTrim name
  if trimmed = "" then .error "Repository name cannot be empty"
  else
    let repo_id := "repo-" ++ String.mk (uuid.toList.take 12)
    let repo_path := match path.bind (fun p =>
        if rustTrim p = "" then none else some (rustTrim p)) with
      | some custom => custom
      | none => get_repos_dir ++ "/" ++ repo_id
    let repo : RepositoryState :=
      { repo_id := repo_id
        name := trimmed
        path := repo_path
        trunk_branch := "main"
        current_commit := none
        created_at := now
        updated_at := now
        workpads := []
        total_commits := 0 }
    let st1 := { st with repositories := setDoc st.repositories repo_id repo }
    let g := st1.global_state
    let g := { g with
      active_repo := some repo.repo_id
      active_workpad := none
      total_operations := wrap32 (g.total_operations + 1)
      last_updated := now }
    .ok (repo, { st1 with global_state := g })

/-- The `.map(|id| removed.contains(id)).unwrap_or(false)` test used by the
`delete_repository` cascade on optional workpad ids. -/
def optIdIn (o : Option String) (ids : List String) : Bool :=
  (o.map (fun id => ids.contains id)).getD false

/-- The workpad ids collected by the `delete_repository` scan: ids of the
workpad documents whose `repo_id` field matches the repository being
deleted. -/
def removedWorkpads (st : Store) (repo_id : String) : List String :=
  (st.workpads.filter (fun p => p.2.repo_id == repo_id)).map
    (fun p => p.2.workpad_id)

/-- `delete_repository` from `commands.rs`: cascading delete. Scans the
workpad collection removing documents whose `repo_id` matches (collecting
their ids), then removes every `TestRun`/`AIOperation` whose workpad id is
in that collected set and every `PromotionRecord` whose `repo_id` matches,
then repairs the session pointers. Removal of the backing working-tree
directory is a filesystem effect outside the modelled state. -/
def delete_repository (st : Store) (repo_id : String) (now : Nat) :
    Except String (Unit × Store) :=
  match lookup st.repositories repo_id with
  | none => .error ("Repository not found: " ++ repo_id)
  | some _ =>
    let st1 := { st with repositories := delDoc st.repositories repo_id }
    let removed_workpads := removedWorkpads st repo_id
    let st2 := { st1 with
      workpads := st1.workpads.filter (fun p => !(p.2.repo_id == repo_id)) }
    let st3 := { st2 with
      test_runs := st2.test_runs.filter
        (fun p => !(optIdIn p.2.workpad_id removed_workpads)) }
    let st4 := { st3 with
      ai_operations := st3.ai_operations.filter
        (fun p => !(optIdIn p.2.workpad_id removed_workpads)) }
    let st5 := { st4 with
      promotions := st4.promotions.filter (fun p => !(p.2.repo_id == repo_id)) }
    let g := st5.global_state
    let g := if g.active_repo = some repo_id
      then { g with active_repo := none } else g
    let g := if optIdIn g.active_workpad removed_workpads
      then { g with active_workpad := none } else g
    let g := { g with
      total_operations := wrap32 (g.total_operations + 1)
      last_updated := now }
    .ok ((), { st5 with global_state := g })

/-! ### Generic lemmas: document store, wrapping, sorting -/

theorem lookup_cons {α : Type} (pk : String) (pv : α) (ps : Coll α)
    (k : String) :
    lookup ((pk, pv) :: ps) k = if k = pk then some pv else lookup ps k := by
  by_cases h : k = pk
  · simp [lookup, List.lookup, h]
  · simp [lookup, List.lookup, beq_false_of_ne h, h]

theorem delDoc_cons {α : Type} (pk : String) (pv : α) (ps : Coll α)
    (k : String) :
    delDoc ((pk, pv) :: ps) k =
      if pk = k then delDoc ps k else (pk, pv) :: delDoc ps k := by
  by_cases h : pk = k
  · simp [delDoc, List.filter_cons, h]
  · simp [delDoc, List.filter_cons, beq_false_of_ne h, h]

theorem lookup_delDoc_self {α : Type} (c : Coll α) (k : String) :
    lookup (delDoc c k) k = none := by
  induction c with
  | nil => rfl
  | cons p ps ih =>
    obtain ⟨pk, pv⟩ := p
    rw [delDoc_cons]
    by_cases hp : pk = k
    · rw [if_pos hp]; exact ih
    · rw [if_neg hp, lookup_cons, if_neg (fun h => hp h.symm)]; exact ih

theorem lookup_delDoc_ne {α : Type} (c : Coll α) (k k' : String) (h : k' ≠ k) :
    lookup (delDoc c k) k' = lookup c k' := by
  induction c with
  | nil => rfl
  | cons p ps ih =>
    obtain ⟨pk, pv⟩ := p
    rw [delDoc_cons, lookup_cons]
    by_cases hp : pk = k
    · rw [if_pos hp, if_neg (by rw [hp]; exact h)]; exact ih
    · rw [if_neg hp, lookup_cons]
      by_cases hk : k' = pk
      · rw [if_pos hk, if_pos hk]
      · rw [if_neg hk, if_neg hk]; exact ih

theorem lookup_setDoc_self {α : Type} (c : Coll α) (k : String) (v : α) :
    lookup (setDoc c k v) k = some v := by
  rw [setDoc, lookup_cons, if_pos rfl]

theorem lookup_setDoc_ne {α : Type} (c : Coll α) (k k' : String) (v : α)
    (h : k' ≠ k) : lookup (setDoc c k v) k' = lookup c k' := by
  rw [setDoc, lookup_cons, if_neg h]
  exact lookup_delDoc_ne c k k' h

theorem lookup_mem {α : Type} {c : Coll α} {k : String} {v : α}
    (h : lookup c k = some v) : (k, v) ∈ c := by
  induction c with
  | nil => simp [lookup, List.lookup] at h
  | cons p ps ih =>
    obtain ⟨pk, pv⟩ := p
    rw [lookup_cons] at h
    by_cases hk : k = pk
    · rw [if_pos hk] at h
      subst hk
      cases h
      exact List.mem_cons_self _ _
    · rw [if_neg hk] at h
      exact List.mem_cons_of_mem _ (ih h)

theorem lookup_delDoc_some {α : Type} {c : Coll α} {k k' : String} {v : α}
    (h : lookup (delDoc c k) k' = some v) : lookup c k' = some v := by
  by_cases hk : k' = k
  · rw [hk, lookup_delDoc_self] at h
    exact absurd h (by simp)
  · rwa [lookup_delDoc_ne c k k' hk] at h

theorem wrap32_eq_self {n : Int} (h1 : -2 ^ 31 ≤ n) (h2 : n < 2 ^ 31) :
    wrap32 n = n := by
  unfold wrap32
  omega

theorem lexLe_total (a b : List Char) : lexLe a b = true ∨ lexLe b a = true := by
  induction a generalizing b with
  | nil => left; rfl
  | cons x xs ih =>
    cases b with
    | nil => right; rfl
    | cons y ys =>
      by_cases hxy : x < y
      · left; simp [lexLe, hxy]
      · by_cases hyx : y < x
        · right; simp [lexLe, hyx]
        · have hx : x = y := le_antisymm (not_lt.mp hyx) (not_lt.mp hxy)
          subst hx
          simpa [lexLe] using ih ys

theorem lexLe_trans {a b c : List Char} (hab : lexLe a b = true)
    (hbc : lexLe b c = true) : lexLe a c = true := by
  induction a generalizing b c with
  | nil => rfl
  | cons x xs ih =>
    cases b with
    | nil => simp [lexLe] at hab
    | cons y ys =>
      cases c with
      | nil => simp [lexLe] at hbc
      | cons z zs =>
        by_cases hxy : x < y
        · have hyz : y ≤ z := by
            by_contra hzy
            have hzy' : z < y := not_le.mp hzy
            by_cases h1 : y < z
            · exact absurd h1 (not_lt.mpr (le_of_lt hzy'))
            · simp [lexLe, h1, ne_of_gt hzy'] at hbc
          have hxz : x < z := lt_of_lt_of_le hxy hyz
          simp [lexLe, hxz]
        · by_cases hxeq : x = y
          · subst hxeq
            simp [lexLe, lt_irrefl] at hab
            by_cases hxz : x < z
            · simp [lexLe, hxz]
            · by_cases hxez : x = z
              · subst hxez
                simp [lexLe, lt_irrefl] at hbc ⊢
                exact ih hab hbc
              · simp [lexLe, hxz, hxez] at hbc
          · simp [lexLe, hxy, hxeq] at hab

instance : IsTotal String (fun a b => lexLe a.toList b.toList = true) :=
  ⟨fun a b => lexLe_total a.toList b.toList⟩

instance : IsTrans String (fun a b => lexLe a.toList b.toList = true) :=
  ⟨fun _ _ _ hab hbc => lexLe_trans hab hbc⟩

theorem sortDedup_sorted (l : List String) :
    List.Sorted (fun a b => lexLe a.toList b.toList = true) (sortDedup l) := by
  unfold sortDedup
  exact List.sorted_insertionSort _ _

theorem mem_sortDedup (x : String) (l : List String) :
    x ∈ sortDedup l ↔ x ∈ l := by
  unfold sortDedup
  rw [(List.perm_insertionSort _ _).mem_iff, List.mem_dedup]

theorem sortDedup_nodup (l : List String) : (sortDedup l).Nodup := by
  unfold sortDedup
  exact (List.perm_insertionSort _ _).nodup_iff.mpr (List.nodup_dedup l)

/-- No repository document's `current_commit` changes between two stores:
every key present in both maps to documents with the same
`current_commit`. -/
def preservesRepoCommits (st st' : Store) : Prop :=
  ∀ k r r', lookup st.repositories k = some r →
    lookup st'.repositories k = some r' → r'.current_commit = r.current_commit

/-- Well-formedness of the repository collection: each document's embedded
`repo_id` equals its filename stem. Every document the system itself
writes satisfies this (`save_repository` writes to `<repo.repo_id>.json`). -/
def reposWellFormed (st : Store) : Prop :=
  ∀ p ∈ st.repositories, p.2.repo_id = p.1

theorem lookup_setDoc_cases {α : Type} (c : Coll α) (k0 : String) (v : α)
    (k : String) (r' : α) (h : lookup (setDoc c k0 v) k = some r') :
    (k = k0 ∧ r' = v) ∨ (¬ k = k0 ∧ lookup c k = some r') := by
  by_cases hk : k = k0
  · left
    refine ⟨hk, ?_⟩
    rw [hk, lookup_setDoc_self] at h
    cases h
    rfl
  · right
    rw [lookup_setDoc_ne _ _ _ _ hk] at h
    exact ⟨hk, h⟩

theorem preservesRepoCommits_of_eq {st st' : Store}
    (h : st'.repositories = st.repositories) : preservesRepoCommits st st' := by
  intro k r r' h1 h2
  rw [h, h1] at h2
  cases h2
  rfl

theorem preservesRepoCommits_of_setDoc {st st' : Store} {k0 : String}
    {v : RepositoryState} (r0 : RepositoryState)
    (hrep : st'.repositories = setDoc st.repositories k0 v)
    (h0 : lookup st.repositories k0 = some r0)
    (hcc : v.current_commit = r0.current_commit) :
    preservesRepoCommits st st' := by
  intro k r r' h1 h2
  rw [hrep] at h2
  rcases lookup_setDoc_cases _ _ _ _ _ h2 with ⟨hk, hv⟩ | ⟨_, h2'⟩
  · subst hk
    rw [h0] at h1
    cases h1
    rw [hv, hcc]
  · rw [h1] at h2'
    cases h2'
    rfl

theorem preservesRepoCommits_of_fresh {st st' : Store} {k0 : String}
    {v : RepositoryState}
    (hrep : st'.repositories = setDoc st.repositories k0 v)
    (h0 : lookup st.repositories k0 = none) :
    preservesRepoCommits st st' := by
  intro k r r' h1 h2
  rw [hrep] at h2
  rcases lookup_setDoc_cases _ _ _ _ _ h2 with ⟨hk, _⟩ | ⟨_, h2'⟩
  · subst hk
    rw [h0] at h1
    exact absurd h1 (by simp)
  · rw [h1] at h2'
    cases h2'
    rfl

theorem preservesRepoCommits_of_delDoc {st st' : Store} {k0 : String}
    (hrep : st'.repositories = delDoc st.repositories k0) :
    preservesRepoCommits st st' := by
  intro k r r' h1 h2
  rw [hrep] at h2
  have h3 := lookup_delDoc_some h2
  rw [h1] at h3
  cases h3
  rfl

/-! ### Concrete fixture store used by witnesses and counterexamples -/

/-- A repository document as `create_repository` followed by some workpad
activity would leave it. -/
def demoRepoA : RepositoryState :=
  { repo_id := "repo-a"
    name := "Demo"
    path := ".sologit/data/repos/repo-a"
    trunk_branch := "main"
    current_commit := none
    created_at := 0
    updated_at := 0
    workpads := ["wp-1", "wp-p", "wp-f"]
    total_commits := 0 }

/-- A workpad that has seen a patch and a passing test run. -/
def demoWp1 : WorkpadState :=
  { workpad_id := "wp-1"
    repo_id := "repo-a"
    title := "Fix bug"
    status := "passed"
    branch_name := "workpad/fix-bug"
    base_commit := "main"
    current_commit := some "c9"
    created_at := 0
    updated_at := 4
    promoted_at := none
    test_runs := ["tr-1"]
    ai_operations := ["op-1"]
    patches_applied := 2
    files_changed := ["a.txt"] }

/-- A workpad already in the terminal `promoted` state. -/
def demoWpP : WorkpadState :=
  { workpad_id := "wp-p"
    repo_id := "repo-a"
    title := "Old work"
    status := "promoted"
    branch_name := "workpad/old-work"
    base_commit := "main"
    current_commit := some "c5"
    created_at := 0
    updated_at := 3
    promoted_at := some 3
    test_runs := []
    ai_operations := []
    patches_applied := 1
    files_changed := ["z.txt"] }

/-- A freshly created draft workpad: no patches, no changed files. -/
def demoWpF : WorkpadState :=
  { workpad_id := "wp-f"
    repo_id := "repo-a"
    title := "Fresh"
    status := "draft"
    branch_name := "workpad/fresh"
    base_commit := "main"
    current_commit := none
    created_at := 5
    updated_at := 5
    promoted_at := none
    test_runs := []
    ai_operations := []
    patches_applied := 0
    files_changed := [] }

/-- A recorded test run owned by `wp-1`. -/
def demoTr1 : TestRun :=
  { run_id := "tr-1"
    workpad_id := some "wp-1"
    target := "unit"
    status := "passed"
    started_at := 2
    completed_at := some 1502
    total_tests := 20
    passed := 20
    failed := 0
    skipped := 0
    duration_ms := 1500 }

/-- A recorded AI operation owned by `wp-1`. -/
def demoOp1 : AIOperation :=
  { operation_id := "op-1"
    workpad_id := some "wp-1"
    operation_type := "prompt"
    status := "completed"
    model := "gpt-4"
    prompt := "please help"
    response := some "AI orchestration placeholder response"
    cost_usd := 0
    tokens_used := 3
    started_at := 1
    completed_at := some 1001
    error := none }

/-- A promotion record referencing `repo-a`. -/
def demoPr1 : PromotionRecord :=
  { record_id := "pr-1"
    repo_id := "repo-a"
    workpad_id := "wp-p"
    decision := "manual"
    can_promote := true
    auto_promote_requested := false
    promoted := true
    commit_hash := some "c5"
    message := "Workpad \x27Old work\x27 promoted to trunk"
    test_run_id := none
    ci_status := none
    ci_message := none
    created_at := 3 }

/-- The session singleton pointing at `repo-a` / `wp-1`. -/
def demoGlobal : GlobalState :=
  { version := "0.4.0"
    last_updated := 4
    active_repo := some "repo-a"
    active_workpad := some "wp-1"
    session_start := 0
    total_operations := 6
    total_cost_usd := 0 }

/-- A populated state root with one repository, three workpads, a test run,
an AI operation and a promotion record. -/
def demoStore : Store :=
  { repositories := [("repo-a", demoRepoA)]
    workpads := [("wp-1", demoWp1), ("wp-p", demoWpP), ("wp-f", demoWpF)]
    test_runs := [("tr-1", demoTr1)]
    ai_operations := [("op-1", demoOp1)]
    promotions := [("pr-1", demoPr1)]
    global_state := demoGlobal }

/-! ### Claim C5 -/

/-- Claim C5: for every existing workpad with an existing owning
repository, `promote_workpad` sets the workpad's status to `promoted` and
stamps `promoted_at`, and sets the repository's `current_commit` to the
workpad's `current_commit` exactly when the workpad carries one (leaving
it unchanged otherwise); and no other mutating operation changes any
existing repository's `current_commit` (for `create_workpad` and
`delete_workpad` this holds on well-formed stores; for
`create_repository` when the generated repository id is fresh). -/
theorem promote_advances_commit_exclusively :
    (∀ st : Store, ∀ wid uuid : String, ∀ now : Nat,
      ∀ w : WorkpadState, ∀ r : RepositoryState,
      lookup st.workpads wid = some w →
      lookup st.repositories w.repo_id = some r →
      ∃ pr st', promote_workpad st wid uuid now = .ok (pr, st') ∧
        (∃ w', lookup st'.workpads w.workpad_id = some w' ∧
          w'.status = "promoted" ∧ w'.promoted_at = some now) ∧
        (∃ r', lookup st'.repositories r.repo_id = some r' ∧
          r'.current_commit =
            (match w.current_commit with
             | some c => some c
             | none => r.current_commit))) ∧
    (∀ st : Store, ∀ rid title uuid : String, ∀ now : Nat,
      ∀ res : WorkpadState, ∀ st' : Store, reposWellFormed st →
      create_workpad st rid title uuid now = .ok (res, st') →
      preservesRepoCommits st st') ∧
    (∀ st : Store, ∀ wid target uuid : String, ∀ now : Nat,
      ∀ res : TestRun, ∀ st' : Store,
      run_tests st wid target uuid now = .ok (res, st') →
      preservesRepoCommits st st') ∧
    (∀ st : Store, ∀ wid msg diff cuuid : String, ∀ now : Nat,
      ∀ res : WorkpadState, ∀ st' : Store,
      apply_patch st wid msg diff cuuid now = .ok (res, st') →
      preservesRepoCommits st st') ∧
    (∀ st : Store, ∀ wid : String, ∀ reason : Option String, ∀ now : Nat,
      ∀ res : WorkpadState, ∀ st' : Store,
      rollback_workpad st wid reason now = .ok (res, st') →
      preservesRepoCommits st st') ∧
    (∀ st : Store, ∀ wid : String, ∀ now : Nat,
      ∀ res : Unit, ∀ st' : Store, reposWellFormed st →
      delete_workpad st wid now = .ok (res, st') →
      preservesRepoCommits st st') ∧
    (∀ st : Store, ∀ wid prompt uuid : String, ∀ now : Nat,
      ∀ res : AIOperation, ∀ st' : Store,
      trigger_ai_operation st wid prompt uuid now = .ok (res, st') →
      preservesRepoCommits st st') ∧
    (∀ st : Store, ∀ name : String, ∀ path : Option String, ∀ uuid : String,
      ∀ now : Nat, ∀ res : RepositoryState, ∀ st' : Store,
      lookup st.repositories ("repo-" ++ String.mk (uuid.toList.take 12))
        = none →
      create_repository st name path uuid now = .ok (res, st') →
      preservesRepoCommits st st') ∧
    (∀ st : Store, ∀ rid : String, ∀ now : Nat,
      ∀ res : Unit, ∀ st' : Store,
      delete_repository st rid now = .ok (res, st') →
      preservesRepoCommits st st') := by
  refine ⟨?_, ?_, ?_, ?_, ?_, ?_, ?_, ?_, ?_⟩
  · intro st wid uuid now w r hw hr
    unfold promote_workpad
    simp only [hw, hr]
    cases hc : w.current_commit with
    | some c =>
      simp only [hc]
      exact ⟨_, _, rfl, ⟨_, lookup_setDoc_self _ _ _, rfl, rfl⟩,
        ⟨_, lookup_setDoc_self _ _ _, rfl⟩⟩
    | none =>
      simp only [hc]
      exact ⟨_, _, rfl, ⟨_, lookup_setDoc_self _ _ _, rfl, rfl⟩,
        ⟨_, lookup_setDoc_self _ _ _, rfl⟩⟩
  · intro st rid title uuid now res st' hwf h
    simp only [create_workpad] at h
    split at h
    · exact absurd h (by simp)
    · split at h
      · exact absurd h (by simp)
      · rename_i repo heq
        simp only [Except.ok.injEq, Prod.mk.injEq] at h
        obtain ⟨-, hst⟩ := h
        subst hst
        have hrid : repo.repo_id = rid := hwf _ (lookup_mem heq)
        by_cases hcont : repo.workpads.contains ("wp-" ++ uuid) = true
        · rw [if_pos hcont]
          refine preservesRepoCommits_of_setDoc repo rfl ?_ rfl
          show lookup st.repositories repo.repo_id = some repo
          rw [hrid]
          exact heq
        · rw [if_neg hcont]
          refine preservesRepoCommits_of_setDoc repo rfl ?_ rfl
          show lookup st.repositories repo.repo_id = some repo
          rw [hrid]
          exact heq
  · intro st wid target uuid now res st' h
    simp only [run_tests] at h
    split at h
    · exact absurd h (by simp)
    · split at h
      · exact absurd h (by simp)
      · simp only [Except.ok.injEq, Prod.mk.injEq] at h
        obtain ⟨-, hst⟩ := h
        subst hst
        exact preservesRepoCommits_of_eq rfl
  · intro st wid msg diff cuuid now res st' h
    simp only [apply_patch] at h
    split at h
    · exact absurd h (by simp)
    · split at h
      · exact absurd h (by simp)
      · simp only [Except.ok.injEq, Prod.mk.injEq] at h
        obtain ⟨-, hst⟩ := h
        subst hst
        exact preservesRepoCommits_of_eq rfl
  · intro st wid reason now res st' h
    simp only [rollback_workpad] at h
    split at h
    · exact absurd h (by simp)
    · simp only [Except.ok.injEq, Prod.mk.injEq] at h
      obtain ⟨-, hst⟩ := h
      subst hst
      exact preservesRepoCommits_of_eq rfl
  · intro st wid now res st' hwf h
    simp only [delete_workpad] at h
    split at h
    · exact absurd h (by simp)
    · rename_i workpad heqw
      split at h
      · exact absurd h (by simp)
      · rename_i repo heqr
        simp only [Except.ok.injEq, Prod.mk.injEq] at h
        obtain ⟨-, hst⟩ := h
        subst hst
        have hrid : repo.repo_id = workpad.repo_id := hwf _ (lookup_mem heqr)
        refine preservesRepoCommits_of_setDoc repo rfl ?_ rfl
        show lookup st.repositories repo.repo_id = some repo
        rw [hrid]
        exact heqr
  · intro st wid prompt uuid now res st' h
    simp only [trigger_ai_operation] at h
    split at h
    · exact absurd h (by simp)
    · split at h
      · split at h
        · exact absurd h (by simp)
        · split at h
          · exact absurd h (by simp)
          · simp only [Except.ok.injEq, Prod.mk.injEq] at h
            obtain ⟨-, hst⟩ := h
            subst hst
            exact preservesRepoCommits_of_eq rfl
      · simp only [Except.ok.injEq, Prod.mk.injEq] at h
        obtain ⟨-, hst⟩ := h
        subst hst
        exact preservesRepoCommits_of_eq rfl
  · intro st name path uuid now res st' hfresh h
    simp only [create_repository] at h
    split at h
    · exact absurd h (by simp)
    · simp only [Except.ok.injEq, Prod.mk.injEq] at h
      obtain ⟨-, hst⟩ := h
      subst hst
      exact preservesRepoCommits_of_fresh rfl hfresh
  · intro st rid now res st' h
    simp only [delete_repository] at h
    split at h
    · exact absurd h (by simp)
    · simp only [Except.ok.injEq, Prod.mk.injEq] at h
      obtain ⟨-, hst⟩ := h
      subst hst
      exact preservesRepoCommits_of_delDoc rfl

/-- Claim C5 (witness): at the concrete fixture store, promoting `wp-1`
(which carries commit `c9`) advances `repo-a` to `c9`, and each of the
other operations, run on the fixture store, preserves every repository's
`current_commit`. -/
theorem promote_advances_commit_exclusively_witness :
    (∃ pr st', promote_workpad demoStore "wp-1" "u7" 12 = .ok (pr, st') ∧
      (∃ w', lookup st'.workpads "wp-1" = some w' ∧
        w'.status = "promoted" ∧ w'.promoted_at = some 12) ∧
      (∃ r', lookup st'.repositories "repo-a" = some r' ∧
        r'.current_commit = some "c9")) ∧
    (∃ res st', create_workpad demoStore "repo-a" "New" "55ee" 13
        = .ok (res, st') ∧ preservesRepoCommits demoStore st') ∧
    (∃ res st', run_tests demoStore "wp-1" "unit" "66ff" 14
        = .ok (res, st') ∧ preservesRepoCommits demoStore st') ∧
    (∃ res st', apply_patch demoStore "wp-1" "msg" "+++ b/c.txt" "77aa" 15
        = .ok (res, st') ∧ preservesRepoCommits demoStore st') ∧
    (∃ res st', rollback_workpad demoStore "wp-1" none 16
        = .ok (res, st') ∧ preservesRepoCommits demoStore st') ∧
    (∃ res st', delete_workpad demoStore "wp-f" 17
        = .ok (res, st') ∧ preservesRepoCommits demoStore st') ∧
    (∃ res st', trigger_ai_operation demoStore "wp-1" "hello" "88bb" 18
        = .ok (res, st') ∧ preservesRepoCommits demoStore st') ∧
    (∃ res st', create_repository demoStore "Other" none "99cc00dd11ee22ff" 19
        = .ok (res, st') ∧ preservesRepoCommits demoStore st') ∧
    (∃ res st', delete_repository demoStore "repo-a" 20
        = .ok (res, st') ∧ preservesRepoCommits demoStore st') := by
  obtain ⟨hA, hCW, hRT, hAP, hRB, hDW, hAI, hCR, hDR⟩ :=
    promote_advances_commit_exclusively
  refine ⟨?_, ?_, ?_, ?_, ?_, ?_, ?_, ?_, ?_⟩
  · obtain ⟨pr, st', h1, h2, h3⟩ :=
      hA demoStore "wp-1" "u7" 12 demoWp1 demoRepoA (by rfl) (by rfl)
    exact ⟨pr, st', h1, h2, h3⟩
  · exact ⟨_, _, rfl, hCW demoStore "repo-a" "New" "55ee" 13 _ _
      (by unfold reposWellFormed; decide) rfl⟩
  · exact ⟨_, _, rfl, hRT demoStore "wp-1" "unit" "66ff" 14 _ _ rfl⟩
  · exact ⟨_, _, rfl, hAP demoStore "wp-1" "msg" "+++ b/c.txt" "77aa" 15 _ _ rfl⟩
  · exact ⟨_, _, rfl, hRB demoStore "wp-1" none 16 _ _ rfl⟩
  · exact ⟨_, _, rfl, hDW demoStore "wp-f" 17 _ _ (by unfold reposWellFormed; decide) rfl⟩
  · exact ⟨_, _, rfl, hAI demoStore "wp-1" "hello" "88bb" 18 _ _ rfl⟩
  · exact ⟨_, _, rfl, hCR demoStore "Other" none "99cc00dd11ee22ff" 19 _ _
      (by rfl) rfl⟩
  · exact ⟨_, _, rfl, hDR demoStore "repo-a" 20 _ _ rfl⟩

/-! ### Claim C2 -/

/-- Claim C2 (counterexample): contrary to the claim, `create_workpad`
appends no random suffix to the slugified title: two workpads created from
the same repository with the same title "Fix bug" (and distinct generated
uuids) both receive the identical branch name `workpad/fix-bug`, not
distinct names matching `workpad/fix-bug-<suffix>`. -/
theorem create_workpad_duplicate_title_shares_branch :
    ((create_workpad demoStore "repo-a" "Fix bug" "1111aaaa2222bbbb" 10).bind
      (fun p => (create_workpad p.2 "repo-a" "Fix bug" "3333cccc4444dddd" 11).map
        (fun q => (p.1.branch_name, q.1.branch_name))))
    = .ok ("workpad/fix-bug", "workpad/fix-bug") := by rfl

/-- Claim C2 (amended): for every existing repository and every title whose
trimmed form slugifies to a non-empty string, `create_workpad` derives the
new workpad's branch name as `workpad/` followed by the slugified title,
with no random suffix; workpads created with the same title therefore share
the same branch name. -/
theorem create_workpad_branch_is_plain_slug
    (st : Store) (rid title uuid : String) (now : Nat) (r : RepositoryState)
    (hr : lookup st.repositories rid = some r)
    (ht : ¬ rustTrim title = "")
    (hs : ¬ slugify (rustTrim title) = "") :
    ∃ wp st', create_workpad st rid title uuid now = .ok (wp, st') ∧
      wp.branch_name = "workpad/" ++ slugify (rustTrim title) := by
  unfold create_workpad
  simp only [if_neg ht, hr]
  exact ⟨_, _, rfl, by simp only [if_neg hs]⟩

/-- Claim C2 (amended, witness): the amended statement at the concrete
fixture store, title "Fix bug". -/
theorem create_workpad_branch_is_plain_slug_witness :
    ∃ wp st',
      create_workpad demoStore "repo-a" "Fix bug" "1111aaaa2222bbbb" 10
        = .ok (wp, st') ∧
      wp.branch_name = "workpad/" ++ slugify (rustTrim "Fix bug") :=
  create_workpad_branch_is_plain_slug demoStore "repo-a" "Fix bug"
    "1111aaaa2222bbbb" 10 demoRepoA (by rfl) (by decide) (by decide)

/-! ### Claim C3 -/

/-- Claim C3 (counterexample): the workpad `wp-p` of the fixture store has
status `promoted` (a terminal state), yet `promote_workpad` succeeds on it
— contrary to the claim that promotion never succeeds from the terminal
state. -/
theorem promote_workpad_succeeds_on_promoted :
    (lookup demoStore.workpads "wp-p").map (fun w => w.status)
        = some "promoted" ∧
    (promote_workpad demoStore "wp-p" "u9" 7).isOk = true := ⟨rfl, rfl⟩

/-- Claim C3 (amended): `promote_workpad` performs no check of the
workpad's status: for every existing workpad whose owning repository
exists, promotion succeeds even when the status is already the terminal
state `promoted`. -/
theorem promote_workpad_no_status_guard
    (st : Store) (wid uuid : String) (now : Nat) (w : WorkpadState)
    (r : RepositoryState)
    (hw : lookup st.workpads wid = some w)
    (hr : lookup st.repositories w.repo_id = some r)
    ( _hstatus : w.status = "promoted") :
    ∃ pr st', promote_workpad st wid uuid now = .ok (pr, st') := by
  unfold promote_workpad
  simp only [hw, hr]
  exact ⟨_, _, rfl⟩

/-- Claim C3 (amended, witness): the amended statement at the concrete
fixture store, workpad `wp-p` (already promoted). -/
theorem promote_workpad_no_status_guard_witness :
    ∃ pr st', promote_workpad demoStore "wp-p" "u9" 7 = .ok (pr, st') :=
  promote_workpad_no_status_guard demoStore "wp-p" "u9" 7 demoWpP demoRepoA
    (by rfl) (by rfl) (by rfl)

/-! ### Claim C4 -/

/-- Claim C4: for every existing workpad, `rollback_workpad` sets status to
`draft`, sets `current_commit` to exactly the `base_commit` captured at
creation, zeroes the `patches_applied` counter, empties `files_changed`
and `test_runs`, and leaves the `ai_operations` list unchanged. -/
theorem rollback_workpad_resets
    (st : Store) (wid : String) (reason : Option String) (now : Nat)
    (w : WorkpadState) (hw : lookup st.workpads wid = some w) :
    ∃ w' st', rollback_workpad st wid reason now = .ok (w', st') ∧
      w'.status = "draft" ∧
      w'.current_commit = some w.base_commit ∧
      w'.patches_applied = 0 ∧
      w'.files_changed = [] ∧
      w'.test_runs = [] ∧
      w'.ai_operations = w.ai_operations := by
  unfold rollback_workpad
  rw [hw]
  exact ⟨_, _, rfl, rfl, rfl, rfl, rfl, rfl, rfl⟩

/-- Claim C4 (witness): the rollback contract at the concrete fixture
store, workpad `wp-1` (2 patches applied, one test run recorded). -/
theorem rollback_workpad_resets_witness :
    ∃ w' st', rollback_workpad demoStore "wp-1" (some "bad idea") 8
        = .ok (w', st') ∧
      w'.status = "draft" ∧
      w'.current_commit = some demoWp1.base_commit ∧
      w'.patches_applied = 0 ∧
      w'.files_changed = [] ∧
      w'.test_runs = [] ∧
      w'.ai_operations = demoWp1.ai_operations :=
  rollback_workpad_resets demoStore "wp-1" (some "bad idea") 8 demoWp1 (by rfl)

/-! ### Claim C6 -/

/-- Claim C6: for every existing workpad and every diff that is not empty
(the source's emptiness check is on the trimmed diff), `apply_patch`
collects the file paths appearing after unified-diff `+++ b/` and `--- a/`
headers (`parse_changed_files`), merges them with the workpad's existing
`files_changed` set, deduplicates, stores the result sorted
lexicographically, and increments `patches_applied` by exactly 1 (stated
under the `i32` non-overflow bound). -/
theorem apply_patch_merges_and_counts
    (st : Store) (wid msg diff cuuid : String) (now : Nat) (w : WorkpadState)
    (hw : lookup st.workpads wid = some w)
    (hd : ¬ rustTrim diff = "")
    (hlo : -2 ^ 31 ≤ w.patches_applied)
    (hhi : w.patches_applied + 1 < 2 ^ 31) :
    ∃ w' st', apply_patch st wid msg diff cuuid now = .ok (w', st') ∧
      w'.patches_applied = w.patches_applied + 1 ∧
      (∀ x, x ∈ w'.files_changed ↔
        x ∈ w.files_changed ∨ x ∈ parse_changed_files diff) ∧
      List.Sorted (fun a b => lexLe a.toList b.toList = true) w'.files_changed ∧
      w'.files_changed.Nodup := by
  unfold apply_patch
  simp only [if_neg hd, hw]
  refine ⟨_, _, rfl, ?_, ?_, ?_, ?_⟩
  · show wrap32 (w.patches_applied + 1) = w.patches_applied + 1
    exact wrap32_eq_self (by omega) hhi
  · intro x
    show x ∈ sortDedup (w.files_changed ++ parse_changed_files diff) ↔ _
    rw [mem_sortDedup, List.mem_append]
  · exact sortDedup_sorted _
  · exact sortDedup_nodup _

/-- Claim C6 (witness): a diff touching `a.txt` and `b.txt` applied to the
fresh fixture workpad `wp-f` (no prior patches, no changed files) yields
`files_changed == ["a.txt", "b.txt"]` and `patches_applied == 1`; the
merge/sort/dedup contract instantiated there. -/
theorem apply_patch_merges_and_counts_witness :
    (apply_patch demoStore "wp-f" "fix"
        "--- a/a.txt\n+++ b/a.txt\n@@ -1 +1 @@\n--- a/b.txt\n+++ b/b.txt\n"
        "c1" 21).map
      (fun p => (p.1.files_changed, p.1.patches_applied))
      = .ok (["a.txt", "b.txt"], 1) ∧
    (∃ w' st', apply_patch demoStore "wp-f" "fix"
        "--- a/a.txt\n+++ b/a.txt\n@@ -1 +1 @@\n--- a/b.txt\n+++ b/b.txt\n"
        "c1" 21 = .ok (w', st') ∧
      w'.patches_applied = demoWpF.patches_applied + 1 ∧
      (∀ x, x ∈ w'.files_changed ↔
        x ∈ demoWpF.files_changed ∨ x ∈ parse_changed_files
          "--- a/a.txt\n+++ b/a.txt\n@@ -1 +1 @@\n--- a/b.txt\n+++ b/b.txt\n") ∧
      List.Sorted (fun a b => lexLe a.toList b.toList = true)
        w'.files_changed ∧
      w'.files_changed.Nodup) :=
  ⟨by rfl,
    apply_patch_merges_and_counts demoStore "wp-f" "fix"
      "--- a/a.txt\n+++ b/a.txt\n@@ -1 +1 @@\n--- a/b.txt\n+++ b/b.txt\n"
      "c1" 21 demoWpF (by rfl) (by decide) (by decide) (by decide)⟩

/-! ### Claim C7 -/

/-- Claim C7: for every existing repository (whose document carries its own
id, as every document the system writes does) and every title that does not
trim to empty, immediately after `create_workpad` returns successfully the
owning repository's workpad-id list contains the new workpad's id,
prepended at the front (stated under freshness of the generated id, which
the source guarantees by generating a fresh uuid). -/
theorem create_workpad_prepends_id
    (st : Store) (rid title uuid : String) (now : Nat) (r : RepositoryState)
    (hr : lookup st.repositories rid = some r)
    (hrid : r.repo_id = rid)
    (ht : ¬ rustTrim title = "")
    (hfresh : ("wp-" ++ uuid) ∉ r.workpads) :
    ∃ wp st' r', create_workpad st rid title uuid now = .ok (wp, st') ∧
      wp.workpad_id = "wp-" ++ uuid ∧
      lookup st'.repositories rid = some r' ∧
      r'.workpads = ("wp-" ++ uuid) :: r.workpads := by
  subst hrid
  unfold create_workpad
  simp only [if_neg ht, hr]
  have hcont : r.workpads.contains ("wp-" ++ uuid) = false := by
    cases hc : r.workpads.contains ("wp-" ++ uuid)
    · rfl
    · exact absurd (List.mem_of_elem_eq_true hc) hfresh
  have hcond : ¬ (r.workpads.contains ("wp-" ++ uuid) = true) := by
    intro hx
    rw [hcont] at hx
    exact Bool.false_ne_true hx
  rw [if_neg hcond]
  refine ⟨_, _, _, rfl, rfl, lookup_setDoc_self _ _ _, ?_⟩
  rfl

/-- Claim C7 (witness): the prepend contract at the concrete fixture store,
creating a workpad titled "Add docs" in `repo-a` (three existing
workpads). -/
theorem create_workpad_prepends_id_witness :
    ∃ wp st' r', create_workpad demoStore "repo-a" "Add docs"
        "f0f1f2f3f4f5f6f7" 22 = .ok (wp, st') ∧
      wp.workpad_id = "wp-" ++ "f0f1f2f3f4f5f6f7" ∧
      lookup st'.repositories "repo-a" = some r' ∧
      r'.workpads = ("wp-" ++ "f0f1f2f3f4f5f6f7") :: demoRepoA.workpads :=
  create_workpad_prepends_id demoStore "repo-a" "Add docs"
    "f0f1f2f3f4f5f6f7" 22 demoRepoA (by rfl) (by rfl) (by decide) (by decide)

/-! ### Claim C8 -/

/-- Shape of a successful promotion: the workpad document is rewritten
with status `promoted`, and the repository document is rewritten with its
`current_commit` advanced exactly when the workpad carries one. -/
theorem promote_workpad_ok (st : Store) (wid uuid : String) (now : Nat)
    (w : WorkpadState) (r : RepositoryState)
    (hw : lookup st.workpads wid = some w)
    (hr : lookup st.repositories w.repo_id = some r) :
    ∃ pr st', promote_workpad st wid uuid now = .ok (pr, st') ∧
      st'.workpads = setDoc st.workpads w.workpad_id
        { w with status := "promoted", promoted_at := some now,
                 updated_at := now } ∧
      st'.repositories = setDoc st.repositories r.repo_id
        { r with
            current_commit := (match w.current_commit with
              | some c => some c
              | none => r.current_commit)
            updated_at := now } := by
  unfold promote_workpad
  simp only [hw, hr]
  cases hc : w.current_commit with
  | some c =>
    simp only [hc]
    exact ⟨_, _, rfl, rfl, rfl⟩
  | none =>
    simp only [hc]
    exact ⟨_, _, rfl, rfl, rfl⟩

/-- Claim C8: promoting the same workpad twice (no intervening operation)
never fails on the second promotion, and is idempotent in its effect on the
owning repository's `current_commit`: after the second promotion the
repository's `current_commit` equals its value after the first (stated for
documents that carry their own ids, as every document the system writes
does). -/
theorem promote_twice_idempotent
    (st : Store) (wid uuid1 uuid2 : String) (t1 t2 : Nat)
    (w : WorkpadState) (r : RepositoryState)
    (hw : lookup st.workpads wid = some w)
    (hwid : w.workpad_id = wid)
    (hr : lookup st.repositories w.repo_id = some r)
    (hrid : r.repo_id = w.repo_id) :
    ∃ pr1 st1 pr2 st2,
      promote_workpad st wid uuid1 t1 = .ok (pr1, st1) ∧
      promote_workpad st1 wid uuid2 t2 = .ok (pr2, st2) ∧
      (lookup st2.repositories w.repo_id).map (fun x => x.current_commit)
        = (lookup st1.repositories w.repo_id).map (fun x => x.current_commit) := by
  subst hwid
  obtain ⟨pr1, st1, h1, hwp1, hrep1⟩ :=
    promote_workpad_ok st w.workpad_id uuid1 t1 w r hw hr
  have hw2 : lookup st1.workpads w.workpad_id = some
      { w with status := "promoted", promoted_at := some t1,
               updated_at := t1 } := by
    rw [hwp1]
    exact lookup_setDoc_self _ _ _
  have hr2 : lookup st1.repositories w.repo_id = some
      { r with
          current_commit := (match w.current_commit with
            | some c => some c
            | none => r.current_commit)
          updated_at := t1 } := by
    rw [hrep1, ← hrid]
    exact lookup_setDoc_self _ _ _
  obtain ⟨pr2, st2, h2, hwp2, hrep2⟩ :=
    promote_workpad_ok st1 w.workpad_id uuid2 t2 _ _ hw2 hr2
  refine ⟨pr1, st1, pr2, st2, h1, h2, ?_⟩
  rw [hrep2, hr2, ← hrid]
  rw [lookup_setDoc_self]
  cases hc : w.current_commit with
  | some c => simp [hc]
  | none => simp [hc]

/-- Claim C8 (witness): promoting `wp-1` of the concrete fixture store
twice in a row succeeds both times and leaves `repo-a`'s `current_commit`
after the second promotion equal to its value after the first. -/
theorem promote_twice_idempotent_witness :
    ∃ pr1 st1 pr2 st2,
      promote_workpad demoStore "wp-1" "aa01" 30 = .ok (pr1, st1) ∧
      promote_workpad st1 "wp-1" "aa02" 31 = .ok (pr2, st2) ∧
      (lookup st2.repositories "repo-a").map (fun x => x.current_commit)
        = (lookup st1.repositories "repo-a").map (fun x => x.current_commit) :=
  promote_twice_idempotent demoStore "wp-1" "aa01" "aa02" 30 31 demoWp1
    demoRepoA (by rfl) (by rfl) (by rfl) (by rfl)

/-! ### Claim C9 -/

/-- Claim C9: for every title that is non-empty after trimming but whose
slugification is empty (e.g. punctuation only), `create_workpad` on an
existing repository still produces a branch name built from a fragment of
the generated workpad id (`wp-<uuid>` with dashes removed, first 8
characters): the fragment is never empty (it always starts `wp`), and —
the generated uuid being alphanumeric — every character of it is
alphanumeric, hence the branch name is filesystem-safe. -/
theorem create_workpad_punct_fallback
    (st : Store) (rid title uuid : String) (now : Nat) (r : RepositoryState)
    (hr : lookup st.repositories rid = some r)
    (ht : ¬ rustTrim title = "")
    (hs : slugify (rustTrim title) = "")
    (hu : ∀ c ∈ uuid.toList, c.isAlphanum = true) :
    ∃ wp st', create_workpad st rid title uuid now = .ok (wp, st') ∧
      wp.branch_name = "workpad/" ++ String.mk
        ((("wp-" ++ uuid).toList.filter (fun c => !(c == '-'))).take 8) ∧
      ¬ (("wp-" ++ uuid).toList.filter (fun c => !(c == '-'))).take 8 = [] ∧
      (∀ c ∈ (("wp-" ++ uuid).toList.filter (fun c => !(c == '-'))).take 8,
        c.isAlphanum = true) := by
  have hlist : ("wp-" ++ uuid).toList = 'w' :: 'p' :: '-' :: uuid.toList := rfl
  unfold create_workpad
  simp only [if_neg ht, hr, hs, if_pos rfl]
  refine ⟨_, _, rfl, rfl, ?_, ?_⟩
  · rw [hlist]
    simp [List.filter]
  · intro c hc
    have hc' : c ∈ ("wp-" ++ uuid).toList.filter (fun c => !(c == '-')) :=
      List.mem_of_mem_take hc
    rw [hlist] at hc'
    obtain ⟨hmem, hne⟩ := List.mem_filter.mp hc'
    simp only [List.mem_cons] at hmem
    rcases hmem with h | h | h | h
    · subst h; decide
    · subst h; decide
    · subst h; simp at hne
    · exact hu c h

/-- Claim C9 (witness): the fallback at the concrete fixture store with the
punctuation-only title `"?!?"` and uuid `abc123def4567890`: branch name
`workpad/wpabc123`, a non-empty all-alphanumeric fragment. -/
theorem create_workpad_punct_fallback_witness :
    (∃ wp st', create_workpad demoStore "repo-a" "?!?" "abc123def4567890" 23
        = .ok (wp, st') ∧
      wp.branch_name = "workpad/" ++ String.mk
        ((("wp-" ++ "abc123def4567890").toList.filter
          (fun c => !(c == '-'))).take 8) ∧
      ¬ (("wp-" ++ "abc123def4567890").toList.filter
          (fun c => !(c == '-'))).take 8 = [] ∧
      (∀ c ∈ (("wp-" ++ "abc123def4567890").toList.filter
          (fun c => !(c == '-'))).take 8, c.isAlphanum = true)) ∧
    (create_workpad demoStore "repo-a" "?!?" "abc123def4567890" 23).map
      (fun p => p.1.branch_name) = .ok "workpad/wpabc123" :=
  ⟨create_workpad_punct_fallback demoStore "repo-a" "?!?" "abc123def4567890"
      23 demoRepoA (by rfl) (by decide) (by decide) (by decide),
    by rfl⟩

/-! ### Claim C10 -/

/-- Claim C10: for every existing workpad and every target that is
non-empty after trimming, `run_tests` produces the fully passing
placeholder TestRun — status `passed`, 20 total tests, 20 passed, 0
failed, 0 skipped, 1500 ms duration, `completed_at` equal to `started_at`
plus 1500 milliseconds — and sets the workpad's status to `passed`,
regardless of the target label or the workpad's prior state. -/
theorem run_tests_placeholder
    (st : Store) (wid target uuid : String) (now : Nat) (w : WorkpadState)
    (hw : lookup st.workpads wid = some w)
    (ht : ¬ rustTrim target = "") :
    ∃ tr st', run_tests st wid target uuid now = .ok (tr, st') ∧
      tr.status = "passed" ∧ tr.total_tests = 20 ∧ tr.passed = 20 ∧
      tr.failed = 0 ∧ tr.skipped = 0 ∧ tr.duration_ms = 1500 ∧
      tr.started_at = now ∧ tr.completed_at = some (now + 1500) ∧
      (∃ w', lookup st'.workpads w.workpad_id = some w' ∧
        w'.status = "passed") := by
  unfold run_tests
  simp only [if_neg ht, hw]
  exact ⟨_, _, rfl, rfl, rfl, rfl, rfl, rfl, rfl, rfl, rfl,
    ⟨_, lookup_setDoc_self _ _ _, rfl⟩⟩

/-- Claim C10 (witness): the placeholder test run at the concrete fixture
store, on the already-promoted workpad `wp-p` (showing the prior state is
irrelevant), with target "integration". -/
theorem run_tests_placeholder_witness :
    ∃ tr st', run_tests demoStore "wp-p" "integration" "bb03" 40
        = .ok (tr, st') ∧
      tr.status = "passed" ∧ tr.total_tests = 20 ∧ tr.passed = 20 ∧
      tr.failed = 0 ∧ tr.skipped = 0 ∧ tr.duration_ms = 1500 ∧
      tr.started_at = 40 ∧ tr.completed_at = some (40 + 1500) ∧
      (∃ w', lookup st'.workpads demoWpP.workpad_id = some w' ∧
        w'.status = "passed") :=
  run_tests_placeholder demoStore "wp-p" "integration" "bb03" 40 demoWpP
    (by rfl) (by decide)

/-! ### Claim C1 -/

/-- Claim C1: for every existing repository, `delete_repository` removes
the Repository document, every Workpad whose repository id matches, every
TestRun and AIOperation whose workpad id is among the workpads removed in
that same call, and every PromotionRecord whose repository id matches;
afterwards the session's active-repository pointer does not name the
deleted repository and its active-workpad pointer does not name any
workpad removed in that call. -/
theorem delete_repository_cascades
    (st : Store) (rid : String) (now : Nat) (repo : RepositoryState)
    (hr : lookup st.repositories rid = some repo) :
    ∃ st', delete_repository st rid now = .ok ((), st') ∧
      lookup st'.repositories rid = none ∧
      (∀ p ∈ st'.workpads, ¬ p.2.repo_id = rid) ∧
      (∀ p ∈ st'.test_runs, ∀ wid ∈ removedWorkpads st rid,
        ¬ p.2.workpad_id = some wid) ∧
      (∀ p ∈ st'.ai_operations, ∀ wid ∈ removedWorkpads st rid,
        ¬ p.2.workpad_id = some wid) ∧
      (∀ p ∈ st'.promotions, ¬ p.2.repo_id = rid) ∧
      ¬ st'.global_state.active_repo = some rid ∧
      (∀ wid ∈ removedWorkpads st rid,
        ¬ st'.global_state.active_workpad = some wid) := by
  unfold delete_repository
  simp only [hr]
  refine ⟨_, rfl, ?_, ?_, ?_, ?_, ?_, ?_, ?_⟩
  · exact lookup_delDoc_self st.repositories rid
  · intro p hp
    have h := (List.mem_filter.mp hp).2
    simpa using h
  · intro p hp wid hwid heq
    have h := (List.mem_filter.mp hp).2
    rw [heq] at h
    simp [optIdIn, List.elem_iff] at h
    exact h hwid
  · intro p hp wid hwid heq
    have h := (List.mem_filter.mp hp).2
    rw [heq] at h
    simp [optIdIn, List.elem_iff] at h
    exact h hwid
  · intro p hp
    have h := (List.mem_filter.mp hp).2
    simpa using h
  · by_cases h1 : st.global_state.active_repo = some rid
    · rw [if_pos h1]
      split <;> simp
    · rw [if_neg h1]
      split <;> exact h1
  · intro wid hwid
    have hwmem : optIdIn (some wid) (removedWorkpads st rid) = true := by
      simp [optIdIn, List.elem_iff]
      exact hwid
    by_cases h1 : st.global_state.active_repo = some rid
    · rw [if_pos h1]
      by_cases h2 : optIdIn st.global_state.active_workpad
          (removedWorkpads st rid) = true
      · rw [if_pos h2]; simp
      · rw [if_neg h2]
        intro heq
        apply h2
        have hg : st.global_state.active_workpad = some wid := heq
        rw [hg]
        exact hwmem
    · rw [if_neg h1]
      by_cases h2 : optIdIn st.global_state.active_workpad
          (removedWorkpads st rid) = true
      · rw [if_pos h2]; simp
      · rw [if_neg h2]
        intro heq
        apply h2
        have hg : st.global_state.active_workpad = some wid := heq
        rw [hg]
        exact hwmem

/-- Claim C1 (witness): the cascade at the concrete fixture store, deleting
`repo-a` (which owns three workpads, a test run, an AI operation and a
promotion record, and is the active repository). -/
theorem delete_repository_cascades_witness :
    ∃ st', delete_repository demoStore "repo-a" 9 = .ok ((), st') ∧
      lookup st'.repositories "repo-a" = none ∧
      (∀ p ∈ st'.workpads, ¬ p.2.repo_id = "repo-a") ∧
      (∀ p ∈ st'.test_runs, ∀ wid ∈ removedWorkpads demoStore "repo-a",
        ¬ p.2.workpad_id = some wid) ∧
      (∀ p ∈ st'.ai_operations, ∀ wid ∈ removedWorkpads demoStore "repo-a",
        ¬ p.2.workpad_id = some wid) ∧
      (∀ p ∈ st'.promotions, ¬ p.2.repo_id = "repo-a") ∧
      ¬ st'.global_state.active_repo = some "repo-a" ∧
      (∀ wid ∈ removedWorkpads demoStore "repo-a",
        ¬ st'.global_state.active_workpad = some wid) :=
  delete_repository_cascades demoStore "repo-a" 9 demoRepoA (by rfl)
